import Mathlib

/-!
Shallow embedding of the KanTannaPDF document-transformation pipeline:
error taxonomy and classifier (src/lib/errorTypes.ts), page splitter
(src/lib/errorHandler.ts, function splitPdfPages), merger
(src/unnamed/part_002, function mergePdfFiles) and thumbnail renderer
(src/components/LanguageSelector.tsx, function generateThumbnail).

Machine integers do not occur on the modelled paths; sizes and page
counts are Nat. JavaScript exceptions are modelled with Except, and the
observable side effects of the two pipeline functions (byte reads,
document loads, page copies, progress-callback invocations) are recorded
in an explicit event trace so that claims about ordering and about work
done before a failure can be stated.
-/

deriving instance DecidableEq for Except

namespace KanTannaPDF

/-! String helpers modelling the JavaScript primitives used by the code:
String.prototype.includes, String.prototype.toLowerCase,
String.prototype.padStart, and the regex replace that strips a trailing
pdf extension. -/

/-- Boolean test that the first character list is an initial segment of
the second; used to model substring search. -/
def hasPre : List Char → List Char → Bool
  | [], _ => true
  | _ :: _, [] => false
  | a :: as, b :: bs => a == b && hasPre as bs

/-- Boolean test that the first character list occurs contiguously inside
the second. -/
def hasSub : List Char → List Char → Bool
  | pat, [] => pat.isEmpty
  | pat, c :: cs => hasPre pat (c :: cs) || hasSub pat cs

/-- Model of JavaScript s.includes(pat). -/
def jsIncludes (s pat : String) : Bool :=
  hasSub pat.toList s.toList

/-- Model of JavaScript s.toLowerCase for the ASCII range (the only range
the keyword comparisons in the source depend on). -/
def jsToLower (s : String) : String :=
  String.mk (s.toList.map Char.toLower)

/-- Model of JavaScript s.padStart(w, c). -/
def padStart (s : String) (w : Nat) (c : Char) : String :=
  String.mk (List.replicate (w - s.length) c) ++ s

/-- Boolean test that the first character list is a final segment of the
second. -/
def hasSuf (pat s : List Char) : Bool :=
  hasPre pat.reverse s.reverse

/-- Model of name.replace over the case-insensitive pattern matching a
trailing ".pdf": drops the final four characters when they spell the pdf
extension in any case. -/
def stripPdfExt (name : String) : String :=
  if hasSuf ".pdf".toList (jsToLower name).toList then name.dropRight 4 else name

/-! Error taxonomy, from src/lib/errorTypes.ts. -/

/-- Enum ErrorType of src/lib/errorTypes.ts. -/
inductive ErrorType
  | INVALID_FILE_TYPE
  | FILE_TOO_LARGE
  | CORRUPTED_PDF
  | PROCESSING_ERROR
  | MEMORY_ERROR
  | UNKNOWN_ERROR
deriving DecidableEq

/-- Interface ErrorInfo of src/lib/errorTypes.ts. -/
structure ErrorInfo where
  type : ErrorType
  message : String
  solution : Option String
deriving DecidableEq

/-- Table ERROR_MESSAGES of src/lib/errorTypes.ts, one fixed
message/solution pair per kind. -/
def ERROR_MESSAGES : ErrorType → ErrorInfo
  | ErrorType.INVALID_FILE_TYPE =>
      { type := ErrorType.INVALID_FILE_TYPE
        message := "잘못된 파일 형식입니다."
        solution := some "PDF 파일만 업로드할 수 있습니다. 파일 형식을 확인해주세요." }
  | ErrorType.FILE_TOO_LARGE =>
      { type := ErrorType.FILE_TOO_LARGE
        message := "파일 크기가 너무 큽니다."
        solution := some "파일 크기는 100MB 이하여야 합니다. 더 작은 파일로 시도해주세요." }
  | ErrorType.CORRUPTED_PDF =>
      { type := ErrorType.CORRUPTED_PDF
        message := "손상된 PDF 파일입니다."
        solution := some "PDF 파일이 손상되었을 수 있습니다. 다른 PDF 파일로 시도해주세요." }
  | ErrorType.PROCESSING_ERROR =>
      { type := ErrorType.PROCESSING_ERROR
        message := "PDF 처리 중 오류가 발생했습니다."
        solution := some "파일을 다시 업로드하거나 다른 PDF 파일로 시도해주세요." }
  | ErrorType.MEMORY_ERROR =>
      { type := ErrorType.MEMORY_ERROR
        message := "메모리 부족으로 처리할 수 없습니다."
        solution := some "더 작은 PDF 파일로 시도하거나 브라우저를 재시작해주세요." }
  | ErrorType.UNKNOWN_ERROR =>
      { type := ErrorType.UNKNOWN_ERROR
        message := "알 수 없는 오류가 발생했습니다."
        solution := some "페이지를 새로고침하거나 잠시 후 다시 시도해주세요." }

/-- A JavaScript value as seen by getErrorInfo, whose parameter has type
unknown. The only features the pipeline ever attaches or reads are:
whether the value is an Error instance, its message string, and the ad
hoc type property the splitter and merger set at throw time. Every value
that is not an Error instance is collapsed into the nonError case. -/
inductive JSValue
  | error (message : String) (tag : Option ErrorType)
  | nonError (desc : String)
deriving DecidableEq

/-- Function getErrorInfo of src/lib/errorTypes.ts: ordered keyword
heuristics over the lowercased message of an Error instance; everything
else maps to UNKNOWN_ERROR. Note the source never reads the ad hoc type
property of the value: the tag component is ignored. -/
def getErrorInfo : JSValue → ErrorInfo
  | JSValue.error message _ =>
      let m := jsToLower message
      if jsIncludes m "invalid" || jsIncludes m "format" then
        ERROR_MESSAGES ErrorType.INVALID_FILE_TYPE
      else if jsIncludes m "large" || jsIncludes m "size" then
        ERROR_MESSAGES ErrorType.FILE_TOO_LARGE
      else if jsIncludes m "corrupt" || jsIncludes m "damaged" then
        ERROR_MESSAGES ErrorType.CORRUPTED_PDF
      else if jsIncludes m "memory" || jsIncludes m "out of memory" then
        ERROR_MESSAGES ErrorType.MEMORY_ERROR
      else if jsIncludes m "processing" || jsIncludes m "parse" then
        ERROR_MESSAGES ErrorType.PROCESSING_ERROR
      else
        ERROR_MESSAGES ErrorType.UNKNOWN_ERROR
  | JSValue.nonError _ => ERROR_MESSAGES ErrorType.UNKNOWN_ERROR

/-! Pipeline model. A File object is modelled by its name, its size in
bytes, and the outcome of parsing its bytes with PDFDocument.load: some
pages when the parse succeeds (each source page represented by an opaque
Nat identifier, in document order), none when the library throws, in
which case parseMsg is the message of the Error it throws. -/

/-- A candidate input file as the pipeline sees it. -/
structure JsFile where
  name : String
  size : Nat
  parsed : Option (List Nat)
  parseMsg : String
deriving DecidableEq

/-- An Error value as thrown inside the pipeline: a message plus the ad
hoc type property the source attaches at throw time (none for errors
raised by the pdf library itself, which carry no such property). -/
structure JsError where
  message : String
  type : Option ErrorType
deriving DecidableEq

/-- Observable side effects of a pipeline run: reading the bytes of a
file, loading them into a document model, copying one source page, and
one invocation of the progress callback. -/
inductive Ev
  | readBytes (name : String)
  | loadDoc (name : String)
  | copyPage (idx : Nat)
  | progress (current : Nat) (total : Nat)
deriving DecidableEq

/-- Sequence of progress-callback invocations recorded in a trace. -/
def progressCalls (evs : List Ev) : List (Nat × Nat) :=
  evs.filterMap fun e =>
    match e with
    | Ev.progress c t => some (c, t)
    | _ => none

/-! Splitter, from splitPdfPages in src/lib/errorHandler.ts. -/

/-- Single-file size ceiling of the splitter (100 MB). -/
def MAX_FILE_SIZE : Nat := 100 * 1024 * 1024

/-- One artifact of a split: interface SplitPdfResult, with the blob
modelled by the list of source-page identifiers it contains. -/
structure SplitPdfResult where
  pageNumber : Nat
  content : List Nat
  fileName : String
deriving DecidableEq

/-- Output filename of one split page, from the source: base name,
the literal page marker, the page number padded with padStart(2, 0),
and the pdf extension. -/
def pageFileName (baseName : String) (pageNumber : Nat) : String :=
  baseName ++ "_page_" ++ padStart (Nat.repr pageNumber) 2 '0' ++ ".pdf"

/-- Results of the split loop: iteration i copies exactly source page i
into a fresh document and names it for page number i + 1. -/
def splitArtifacts (baseName : String) (pages : List Nat) : List SplitPdfResult :=
  (List.range pages.length).map fun i =>
    { pageNumber := i + 1
      content := [pages.getD i 0]
      fileName := pageFileName baseName (i + 1) }

/-- Events of the split loop: iteration i copies page i and then reports
progress (i + 1, n). -/
def splitLoopEvents (n : Nat) : List Ev :=
  ((List.range n).map fun i => [Ev.copyPage i, Ev.progress (i + 1) n]).flatten

/-- Error thrown by the splitter when the single-file ceiling is
exceeded, typed FILE_TOO_LARGE at creation. -/
def splitTooLargeErr : JsError :=
  { message := "파일 크기가 너무 큽니다.", type := some ErrorType.FILE_TOO_LARGE }

/-- Body of the try block of splitPdfPages: size gate, then byte read,
then document load, then the per-page loop. The in-browser memory
advisory only logs a warning and is not modelled. -/
def splitTryBody (file : JsFile) : List Ev × Except JsError (List SplitPdfResult) :=
  if MAX_FILE_SIZE < file.size then
    ([], Except.error splitTooLargeErr)
  else
    match file.parsed with
    | none =>
        ([Ev.readBytes file.name, Ev.loadDoc file.name],
         Except.error { message := file.parseMsg, type := none })
    | some pages =>
        ([Ev.readBytes file.name, Ev.loadDoc file.name] ++ splitLoopEvents pages.length,
         Except.ok (splitArtifacts (stripPdfExt file.name) pages))

/-- Catch block of splitPdfPages: an error that already carries a type
property is rethrown unchanged; otherwise the message is inspected and
the error is rewrapped as CORRUPTED_PDF or PROCESSING_ERROR. (The
source also maps a thrown non-Error value to UNKNOWN_ERROR; in this
model every thrown value is a JsError, so that branch is unreachable.) -/
def splitCatch (e : JsError) : JsError :=
  match e.type with
  | some _ => e
  | none =>
      let m := jsToLower e.message
      if jsIncludes m "parse" || jsIncludes m "invalid" then
        { message := "손상된 PDF 파일입니다.", type := some ErrorType.CORRUPTED_PDF }
      else
        { message := "PDF 처리 중 오류가 발생했습니다: " ++ e.message
          type := some ErrorType.PROCESSING_ERROR }

/-- Function splitPdfPages: the try body with its catch block. -/
def splitPdfPages (file : JsFile) : List Ev × Except JsError (List SplitPdfResult) :=
  match splitTryBody file with
  | (evs, Except.ok v) => (evs, Except.ok v)
  | (evs, Except.error e) => (evs, Except.error (splitCatch e))

/-! Merger, from mergePdfFiles in src/unnamed/part_002. -/

/-- Aggregate size ceiling of the merger (200 MB over all inputs). -/
def MAX_TOTAL_SIZE : Nat := 200 * 1024 * 1024

/-- Result of a merge: interface MergePdfResult, with the blob modelled
by the list of source-page identifiers it contains, in output order. -/
structure MergePdfResult where
  content : List Nat
  fileName : String
  totalPages : Nat
deriving DecidableEq

/-- Error thrown by the merger on an empty input list. -/
def mergeNoFilesErr : JsError :=
  { message := "병합할 파일이 없습니다.", type := some ErrorType.INVALID_FILE_TYPE }

/-- Error thrown by the merger on a single-element input list. -/
def mergeNeedTwoErr : JsError :=
  { message := "병합하려면 최소 2개 이상의 파일이 필요합니다.",
    type := some ErrorType.INVALID_FILE_TYPE }

/-- Error thrown by the merger when the aggregate ceiling is exceeded. -/
def mergeTooLargeErr : JsError :=
  { message := "모든 파일의 총 크기가 너무 큽니다.", type := some ErrorType.FILE_TOO_LARGE }

/-- Loop of mergePdfFiles over the input list: for the file at position
i (0-based), read its bytes, load it, copy all of its pages in order
onto the accumulated output, add its page count to the running total,
and report progress (i + 1, k). A parse failure aborts the loop with the
untyped error of the pdf library. -/
def mergeLoop (k : Nat) : Nat → List JsFile → List Nat × Nat →
    List Ev × Except JsError (List Nat × Nat)
  | _, [], acc => ([], Except.ok acc)
  | i, f :: rest, (accPages, accTotal) =>
      match f.parsed with
      | none =>
          ([Ev.readBytes f.name, Ev.loadDoc f.name],
           Except.error { message := f.parseMsg, type := none })
      | some pages =>
          let pre := [Ev.readBytes f.name, Ev.loadDoc f.name] ++
            (List.range pages.length).map Ev.copyPage ++ [Ev.progress (i + 1) k]
          let (evs, r) := mergeLoop k (i + 1) rest (accPages ++ pages, accTotal + pages.length)
          (pre ++ evs, r)

/-- Default file used only to model the indexing files[0], which the
source reaches only when the list has at least two elements. -/
def dfltFile : JsFile := { name := "", size := 0, parsed := none, parseMsg := "" }

/-- Body of the try block of mergePdfFiles: count gates, aggregate size
gate, then the merge loop, then assembly of the result. The output name
is the base name of the first file plus the fixed merged suffix. -/
def mergeTryBody (files : List JsFile) : List Ev × Except JsError MergePdfResult :=
  if files.length = 0 then
    ([], Except.error mergeNoFilesErr)
  else if files.length = 1 then
    ([], Except.error mergeNeedTwoErr)
  else if MAX_TOTAL_SIZE < (files.map JsFile.size).sum then
    ([], Except.error mergeTooLargeErr)
  else
    match mergeLoop files.length 0 files ([], 0) with
    | (evs, Except.error e) => (evs, Except.error e)
    | (evs, Except.ok (pages, total)) =>
        (evs, Except.ok
          { content := pages
            fileName := stripPdfExt (files.headD dfltFile).name ++ "_merged.pdf"
            totalPages := total })

/-- Catch block of mergePdfFiles, same shape as the catch block of the
splitter but with the merge wording. -/
def mergeCatch (e : JsError) : JsError :=
  match e.type with
  | some _ => e
  | none =>
      let m := jsToLower e.message
      if jsIncludes m "parse" || jsIncludes m "invalid" then
        { message := "손상된 PDF 파일이 포함되어 있습니다.", type := some ErrorType.CORRUPTED_PDF }
      else
        { message := "PDF 병합 중 오류가 발생했습니다: " ++ e.message
          type := some ErrorType.PROCESSING_ERROR }

/-- Function mergePdfFiles: the try body with its catch block. -/
def mergePdfFiles (files : List JsFile) : List Ev × Except JsError MergePdfResult :=
  match mergeTryBody files with
  | (evs, Except.ok v) => (evs, Except.ok v)
  | (evs, Except.error e) => (evs, Except.error (mergeCatch e))

/-! Thumbnail renderer, from generateThumbnail in
src/components/LanguageSelector.tsx. -/

/-- Environment of one generateThumbnail call: whether a window object
exists, which of the fallible steps inside the try block fail (the
dynamic import of the pdf library, document or page loading, 2d context
acquisition, page rendering), and the data URL the canvas would encode
on success. -/
structure ThumbEnv where
  hasWindow : Bool
  importFails : Bool
  loadFails : Bool
  hasContext : Bool
  renderFails : Bool
  dataUrl : String
deriving DecidableEq

/-- Try block of generateThumbnail: each step either succeeds or throws;
a missing 2d context is thrown explicitly by the source. -/
def generateThumbnailTry (env : ThumbEnv) : Except String String :=
  if env.importFails then Except.error "import of pdfjs-dist failed"
  else if env.loadFails then Except.error "document load failed"
  else if !env.hasContext then Except.error "Canvas context를 가져올 수 없습니다."
  else if env.renderFails then Except.error "page render failed"
  else Except.ok env.dataUrl

/-- Function generateThumbnail: outside a browser it returns the empty
string at once; otherwise the whole try block is wrapped in a catch
that logs and returns the empty string, so the function always returns
a plain string and never rethrows. -/
def generateThumbnail (env : ThumbEnv) : String :=
  if !env.hasWindow then ""
  else
    match generateThumbnailTry env with
    | Except.ok url => url
    | Except.error _ => ""

/-- One split artifact with the thumbnail attached, as built by the
caller in src/app/page.tsx. -/
structure ThumbedResult where
  result : SplitPdfResult
  thumbnail : String
deriving DecidableEq

/-- Caller-side thumbnail pass of src/app/page.tsx: map over the split
results, attaching to each the string generateThumbnail returned. -/
def attachThumbnails (env : ThumbEnv) (rs : List SplitPdfResult) : List ThumbedResult :=
  rs.map fun r => { result := r, thumbnail := generateThumbnail env }

/-- Spec-side filename shape for one split page, following the words of
the specification: base name, page marker, the page number zero-padded
to width w, and the pdf extension. Used only to compare the claimed
padding width against the filename the code builds. -/
def specPageFileName (baseName : String) (pageNumber : Nat) (w : Nat) : String :=
  baseName ++ "_page_" ++ padStart (Nat.repr pageNumber) w '0' ++ ".pdf"


def parsedAll : List JsFile → Option (List (List Nat))
  | [] => some []
  | f :: fs =>
      match f.parsed, parsedAll fs with
      | some p, some ps => some (p :: ps)
      | _, _ => none

/-- Concrete three-page input used by witnesses. -/
def wfile3 : JsFile :=
  { name := "report.pdf", size := 5000, parsed := some [10, 11, 12], parseMsg := "" }

/-- Concrete two-page input used by witnesses. -/
def wfileA : JsFile :=
  { name := "a.pdf", size := 100, parsed := some [1, 2], parseMsg := "" }

/-- Concrete three-page input used by witnesses. -/
def wfileB : JsFile :=
  { name := "b.pdf", size := 200, parsed := some [3, 4, 5], parseMsg := "" }

/-- Concrete hundred-page input exercising the padding claim. -/
def doc100 : JsFile :=
  { name := "doc.pdf", size := 5000, parsed := some (List.range 100), parseMsg := "" }

/-- Default artifact used only for list indexing in statements. -/
def dfltArt : SplitPdfResult := { pageNumber := 0, content := [], fileName := "" }

/-- Concrete file one megabyte over the single-file ceiling. -/
def bigFile : JsFile :=
  { name := "big.pdf", size := 101 * 1024 * 1024, parsed := some [1], parseMsg := "" }

/-- Concrete pair of files jointly over the aggregate ceiling. -/
def bigA : JsFile :=
  { name := "x.pdf", size := 150 * 1024 * 1024, parsed := some [1], parseMsg := "" }

/-- Second file of the over-ceiling merge pair. -/
def bigB : JsFile :=
  { name := "y.pdf", size := 51 * 1024 * 1024, parsed := some [2], parseMsg := "" }

/-- Concrete renderer environment whose page render fails. -/
def envRenderFail : ThumbEnv :=
  { hasWindow := true, importFails := false, loadFails := false,
    hasContext := true, renderFails := true, dataUrl := "data:image/jpeg;base64,AAAA" }

theorem map_range_getD {α : Type} (l : List α) (d : α) :
    (List.range l.length).map (fun i => l.getD i d) = l := by
  induction l with
  | nil => rfl
  | cons x xs ih =>
      rw [List.length_cons, List.range_succ_eq_map]
      simp only [List.map_cons, List.map_map]
      simp only [List.getD_cons_zero, Function.comp_def]
      rw [show (fun i => (x :: xs).getD (Nat.succ i) d) = fun i => xs.getD i d from rfl]
      rw [ih]

theorem progressCalls_append (a b : List Ev) :
    progressCalls (a ++ b) = progressCalls a ++ progressCalls b := by
  simp [progressCalls, List.filterMap_append]

theorem flatten_map_single {α β : Type} (f : α → β) (l : List α) :
    (l.map fun a => [f a]).flatten = l.map f := by
  induction l with
  | nil => rfl
  | cons x xs ih => simp [ih]

theorem progressCalls_splitLoopEvents (n : Nat) :
    progressCalls (splitLoopEvents n) = (List.range n).map (fun i => (i + 1, n)) := by
  simp only [progressCalls, splitLoopEvents, List.filterMap_flatten, List.map_map]
  rw [show ((fun l => List.filterMap (fun e =>
        match e with
        | Ev.progress c t => some (c, t)
        | _ => none) l) ∘ fun i => [Ev.copyPage i, Ev.progress (i + 1) n])
      = fun i => [(i + 1, n)] from rfl]
  exact flatten_map_single _ _

theorem progressCalls_copyPages (l : List Nat) :
    progressCalls (l.map Ev.copyPage) = [] := by
  induction l with
  | nil => rfl
  | cons x xs ih => simp [progressCalls, List.filterMap_cons] at ih ⊢


theorem mergeLoop_spec (fs : List JsFile) :
    ∀ (pss : List (List Nat)) (k i : Nat) (accP : List Nat) (accT : Nat),
      parsedAll fs = some pss →
      ∃ evs, mergeLoop k i fs (accP, accT)
          = (evs, Except.ok (accP ++ pss.flatten, accT + (pss.map List.length).sum)) ∧
        progressCalls evs = (List.range' (i + 1) fs.length).map (fun c => (c, k)) := by
  induction fs with
  | nil =>
      intro pss k i accP accT hp
      refine ⟨[], ?_, ?_⟩
      · simp [mergeLoop]
        cases hp
        simp
      · simp [progressCalls]
  | cons f rest ih =>
      intro pss k i accP accT hp
      cases hf : f.parsed with
      | none => simp [parsedAll, hf] at hp
      | some p =>
          cases hrest : parsedAll rest with
          | none => simp [parsedAll, hf, hrest] at hp
          | some ps =>
              have hpss : pss = p :: ps := by
                simp [parsedAll, hf, hrest] at hp
                exact hp.symm
              subst hpss
              obtain ⟨evs0, hEq, hProg⟩ := ih ps k (i + 1) (accP ++ p) (accT + p.length) hrest
              refine ⟨[Ev.readBytes f.name, Ev.loadDoc f.name] ++
                (List.range p.length).map Ev.copyPage ++ [Ev.progress (i + 1) k] ++ evs0, ?_, ?_⟩
              · simp only [mergeLoop, hf, hEq]
                simp [List.append_assoc, Nat.add_assoc]
              · rw [progressCalls_append, progressCalls_append, progressCalls_append]
                rw [progressCalls_copyPages, hProg]
                simp [progressCalls, List.range'_succ]

/-- Claim C1, counterexample: the splitter throws its size failure
already typed FILE_TOO_LARGE, yet getErrorInfo classifies that very
failure as UNKNOWN_ERROR (its Korean message contains no keyword), so
the classifier does not propagate an assigned kind unchanged. -/
theorem C1_cex_typed_failure_reclassified :
    getErrorInfo (JSValue.error "파일 크기가 너무 큽니다." (some ErrorType.FILE_TOO_LARGE))
        = ERROR_MESSAGES ErrorType.UNKNOWN_ERROR ∧
    ERROR_MESSAGES ErrorType.UNKNOWN_ERROR ≠ ERROR_MESSAGES ErrorType.FILE_TOO_LARGE := by
  decide

/-- Claim C1, amended: getErrorInfo ignores the assigned kind entirely
and classifies by message text alone; the propagate-unchanged behaviour
for already-typed failures lives in the catch blocks of the splitter and
the merger, which rethrow a typed error as is. -/
theorem C1_classifier_ignores_assigned_kind :
    (∀ (m : String) (t1 t2 : Option ErrorType),
        getErrorInfo (JSValue.error m t1) = getErrorInfo (JSValue.error m t2)) ∧
    (∀ e : JsError, e.type ≠ none → splitCatch e = e ∧ mergeCatch e = e) := by
  constructor
  · intro m t1 t2
    rfl
  · intro e he
    obtain ⟨msg, ty⟩ := e
    cases ty with
    | none => exact absurd rfl he
    | some t => exact ⟨rfl, rfl⟩

/-- Witness for C1_classifier_ignores_assigned_kind at a typed error. -/
theorem C1_classifier_ignores_assigned_kind_witness :
    getErrorInfo (JSValue.error "out of memory" (some ErrorType.FILE_TOO_LARGE))
        = getErrorInfo (JSValue.error "out of memory" none) ∧
    splitCatch splitTooLargeErr = splitTooLargeErr ∧
    mergeCatch splitTooLargeErr = splitTooLargeErr :=
  ⟨C1_classifier_ignores_assigned_kind.1 "out of memory" (some ErrorType.FILE_TOO_LARGE) none,
   (C1_classifier_ignores_assigned_kind.2 splitTooLargeErr (by decide)).1,
   (C1_classifier_ignores_assigned_kind.2 splitTooLargeErr (by decide)).2⟩

/-- Claim C10: getErrorInfo is total over arbitrary values, always
returning an entry of the fixed ERROR_MESSAGES table; every non-Error
value maps to UNKNOWN_ERROR; and classification depends only on the
lowercased message, never on the tag, so matching is case-insensitive. -/
theorem C10_getErrorInfo_total :
    (∀ v : JSValue, ∃ t : ErrorType, getErrorInfo v = ERROR_MESSAGES t) ∧
    (∀ d : String, getErrorInfo (JSValue.nonError d) = ERROR_MESSAGES ErrorType.UNKNOWN_ERROR) ∧
    (∀ (m1 m2 : String) (t1 t2 : Option ErrorType), jsToLower m1 = jsToLower m2 →
        getErrorInfo (JSValue.error m1 t1) = getErrorInfo (JSValue.error m2 t2)) := by
  refine ⟨?_, fun d => rfl, ?_⟩
  · intro v
    cases v with
    | nonError d => exact ⟨ErrorType.UNKNOWN_ERROR, rfl⟩
    | error m tag =>
        simp only [getErrorInfo]
        split_ifs <;> exact ⟨_, rfl⟩
  · intro m1 m2 t1 t2 h
    simp only [getErrorInfo, h]

/-- Witness for C10_getErrorInfo_total: case differences in the message
do not change the classification. -/
theorem C10_getErrorInfo_total_witness :
    getErrorInfo (JSValue.error "INVALID Format" (some ErrorType.MEMORY_ERROR))
        = getErrorInfo (JSValue.error "invalid format" none) :=
  C10_getErrorInfo_total.2.2 "INVALID Format" "invalid format"
    (some ErrorType.MEMORY_ERROR) none (by decide)




/-- Claim C2, counterexample: merging a single document is rejected with
the kind INVALID_FILE_TYPE, not a dedicated invalid-input kind; indeed
the ErrorType enum of the code has no member other than the six listed,
so no InvalidInput kind exists to reject with. -/
theorem C2_cex_single_merge_kind :
    mergePdfFiles [wfileA] = ([], Except.error mergeNeedTwoErr) ∧
    mergeNeedTwoErr.type = some ErrorType.INVALID_FILE_TYPE ∧
    (∀ t : ErrorType, t = ErrorType.INVALID_FILE_TYPE ∨ t = ErrorType.FILE_TOO_LARGE ∨
      t = ErrorType.CORRUPTED_PDF ∨ t = ErrorType.PROCESSING_ERROR ∨
      t = ErrorType.MEMORY_ERROR ∨ t = ErrorType.UNKNOWN_ERROR) := by
  refine ⟨by decide, by decide, ?_⟩
  intro t
  cases t <;> simp

/-- Claim C2, amended: for fewer than two input documents, mergePdfFiles
rejects with a failure typed INVALID_FILE_TYPE (the enum the code uses
for invalid input), and its event trace is empty: no byte of any input
is read, no document loaded, no page copied, before the rejection. -/
theorem C2_merge_too_few_rejected_before_read (files : List JsFile)
    (h : files.length < 2) :
    mergePdfFiles files =
      ([], Except.error (if files.length = 0 then mergeNoFilesErr else mergeNeedTwoErr)) ∧
    (if files.length = 0 then mergeNoFilesErr else mergeNeedTwoErr).type
        = some ErrorType.INVALID_FILE_TYPE := by
  cases files with
  | nil => exact ⟨rfl, rfl⟩
  | cons a l =>
      cases l with
      | nil => exact ⟨rfl, rfl⟩
      | cons b m => simp [List.length_cons] at h; omega

/-- Witness for C2_merge_too_few_rejected_before_read on one file. -/
theorem C2_merge_too_few_witness :
    mergePdfFiles [wfileA] =
      ([], Except.error (if ([wfileA] : List JsFile).length = 0
                          then mergeNoFilesErr else mergeNeedTwoErr)) ∧
    (if ([wfileA] : List JsFile).length = 0 then mergeNoFilesErr else mergeNeedTwoErr).type
        = some ErrorType.INVALID_FILE_TYPE :=
  C2_merge_too_few_rejected_before_read [wfileA] (by decide)

/-- Claim C4: for a validated document of n pages, split succeeds with
exactly n artifacts whose page numbers are 1..n in source order, whose
contents are the source pages in order, and n = 0 gives the empty list
without error. -/
theorem C4_split_artifacts_contiguous (file : JsFile) (pages : List Nat)
    (hp : file.parsed = some pages) (hs : file.size ≤ MAX_FILE_SIZE) :
    ∃ arts, (splitPdfPages file).2 = Except.ok arts ∧
      arts.length = pages.length ∧
      arts.map SplitPdfResult.pageNumber = List.range' 1 pages.length ∧
      arts.map SplitPdfResult.content = pages.map (fun p => [p]) ∧
      (pages = [] → arts = []) := by
  have hlt : ¬ MAX_FILE_SIZE < file.size := Nat.not_lt.mpr hs
  refine ⟨splitArtifacts (stripPdfExt file.name) pages, ?_, ?_, ?_, ?_, ?_⟩
  · simp [splitPdfPages, splitTryBody, hlt, hp]
  · simp [splitArtifacts]
  · simp only [splitArtifacts, List.map_map]
    rw [List.range'_eq_map_range]
    apply List.map_congr_left
    intro i _
    simp [Nat.add_comm]
  · simp only [splitArtifacts, List.map_map]
    rw [show ((fun r => SplitPdfResult.content r) ∘ fun i =>
          ({ pageNumber := i + 1, content := [pages.getD i 0],
             fileName := pageFileName (stripPdfExt file.name) (i + 1) } : SplitPdfResult))
        = (fun p => [p]) ∘ (fun i => pages.getD i 0) from rfl]
    rw [← List.map_map, map_range_getD]
  · intro h
    subst h
    rfl

/-- Witness for C4_split_artifacts_contiguous on a three-page file. -/
theorem C4_split_artifacts_contiguous_witness :
    ∃ arts, (splitPdfPages wfile3).2 = Except.ok arts ∧
      arts.length = ([10, 11, 12] : List Nat).length ∧
      arts.map SplitPdfResult.pageNumber = List.range' 1 ([10, 11, 12] : List Nat).length ∧
      arts.map SplitPdfResult.content = ([10, 11, 12] : List Nat).map (fun p => [p]) ∧
      (([10, 11, 12] : List Nat) = [] → arts = []) :=
  C4_split_artifacts_contiguous wfile3 [10, 11, 12] rfl (by decide)

/-- Claim C5: for an n-page split the progress callback fires exactly n
times with arguments (1,n) through (n,n) in order, the reported current
values are pairwise strictly increasing, and the last call reports
current equal to total. -/
theorem C5_split_progress (file : JsFile) (pages : List Nat)
    (hp : file.parsed = some pages) (hs : file.size ≤ MAX_FILE_SIZE) :
    progressCalls (splitPdfPages file).1
        = (List.range' 1 pages.length).map (fun c => (c, pages.length)) ∧
    (progressCalls (splitPdfPages file).1).length = pages.length ∧
    List.Pairwise (fun a b => a.1 < b.1) (progressCalls (splitPdfPages file).1) ∧
    (pages.length ≠ 0 →
      (progressCalls (splitPdfPages file).1).getLast?
          = some (pages.length, pages.length)) := by
  have hlt : ¬ MAX_FILE_SIZE < file.size := Nat.not_lt.mpr hs
  have hcalls : progressCalls (splitPdfPages file).1
      = (List.range' 1 pages.length).map (fun c => (c, pages.length)) := by
    rw [show (splitPdfPages file).1
        = [Ev.readBytes file.name, Ev.loadDoc file.name] ++ splitLoopEvents pages.length by
      simp [splitPdfPages, splitTryBody, hlt, hp]]
    rw [progressCalls_append, progressCalls_splitLoopEvents]
    rw [show progressCalls [Ev.readBytes file.name, Ev.loadDoc file.name] = [] from rfl]
    rw [List.nil_append, List.range'_eq_map_range, List.map_map]
    apply List.map_congr_left
    intro i _
    simp [Nat.add_comm]
  refine ⟨hcalls, ?_, ?_, ?_⟩
  · simp [hcalls]
  · rw [hcalls]
    exact (List.pairwise_lt_range' 1 pages.length).map _ (fun a b h => h)
  · intro hn
    obtain ⟨m, hm⟩ := Nat.exists_eq_succ_of_ne_zero hn
    rw [hcalls, hm, List.range'_concat, List.map_append]
    simp [Nat.add_comm]

/-- Witness for C5_split_progress on a three-page file. -/
theorem C5_split_progress_witness :
    progressCalls (splitPdfPages wfile3).1
        = (List.range' 1 ([10, 11, 12] : List Nat).length).map
            (fun c => (c, ([10, 11, 12] : List Nat).length)) ∧
    (progressCalls (splitPdfPages wfile3).1).length = ([10, 11, 12] : List Nat).length ∧
    List.Pairwise (fun a b => a.1 < b.1) (progressCalls (splitPdfPages wfile3).1) ∧
    (([10, 11, 12] : List Nat).length ≠ 0 →
      (progressCalls (splitPdfPages wfile3).1).getLast?
          = some (([10, 11, 12] : List Nat).length, ([10, 11, 12] : List Nat).length)) :=
  C5_split_progress wfile3 [10, 11, 12] rfl (by decide)

/-- Length of a padStart result: the target width, or the original
length when already wide enough. -/
theorem padStart_length (s : String) (w : Nat) (c : Char) :
    (padStart s w c).length = (w - s.length) + s.length := by
  simp [padStart]



/-- Claim C3, counterexample: in a 100-page document the artifact of
page 5 is named doc_page_05.pdf, whose number field has two digits,
while the claimed padding of at least three digits would force a name of
length at least 16, so no width of three or more produces this name. -/
theorem C3_cex_pad_width_at_100_pages :
    (splitPdfPages doc100).2 = Except.ok (splitArtifacts "doc" (List.range 100)) ∧
    (splitArtifacts "doc" (List.range 100)).length = 100 ∧
    ((splitArtifacts "doc" (List.range 100)).getD 4 dfltArt).fileName = "doc_page_05.pdf" ∧
    (∀ w : Nat, 3 ≤ w → specPageFileName "doc" 5 w ≠ "doc_page_05.pdf") := by
  refine ⟨by decide, by decide, by decide, ?_⟩
  intro w hw h
  have hl := congrArg String.length h
  rw [specPageFileName] at hl
  simp only [String.length_append, padStart_length] at hl
  have h5 : (Nat.repr 5).length = 1 := by decide
  have h3 : ("doc" : String).length = 3 := by decide
  have h6 : ("_page_" : String).length = 6 := by decide
  have h4 : (".pdf" : String).length = 4 := by decide
  have h15 : ("doc_page_05.pdf" : String).length = 15 := by decide
  rw [h5, h3, h6, h4, h15] at hl
  omega

/-- Claim C3, amended: every split filename is the base name, the page
marker, and the page number padded with padStart to width exactly 2,
for every document size; pages numbered below 100 keep two digits even
in documents of 100 pages or more. -/
theorem C3_split_fileName_pad2 (file : JsFile) (pages : List Nat)
    (hp : file.parsed = some pages) (hs : file.size ≤ MAX_FILE_SIZE) :
    ∃ arts, (splitPdfPages file).2 = Except.ok arts ∧
      arts.map SplitPdfResult.fileName =
        (List.range pages.length).map
          (fun i => specPageFileName (stripPdfExt file.name) (i + 1) 2) := by
  have hlt : ¬ MAX_FILE_SIZE < file.size := Nat.not_lt.mpr hs
  refine ⟨splitArtifacts (stripPdfExt file.name) pages, ?_, ?_⟩
  · simp [splitPdfPages, splitTryBody, hlt, hp]
  · simp only [splitArtifacts, List.map_map]
    rfl

/-- Witness for C3_split_fileName_pad2 on a hundred-page file. -/
theorem C3_split_fileName_pad2_witness :
    ∃ arts, (splitPdfPages doc100).2 = Except.ok arts ∧
      arts.map SplitPdfResult.fileName =
        (List.range (List.range 100).length).map
          (fun i => specPageFileName (stripPdfExt doc100.name) (i + 1) 2) :=
  C3_split_fileName_pad2 doc100 (List.range 100) rfl (by decide)

/-- Claim C6: merging two validated documents succeeds with total page
count a + b and output pages equal to all pages of the first document in
order followed by all pages of the second in order. -/
theorem C6_merge_two_concatenates (A B : JsFile) (pa pb : List Nat)
    (ha : A.parsed = some pa) (hb : B.parsed = some pb)
    (hs : A.size + B.size ≤ MAX_TOTAL_SIZE) :
    ∃ r, (mergePdfFiles [A, B]).2 = Except.ok r ∧
      r.totalPages = pa.length + pb.length ∧
      r.content = pa ++ pb := by
  have hsum : ([A, B].map JsFile.size).sum = A.size + B.size := by
    simp
  have hlt : ¬ MAX_TOTAL_SIZE < ([A, B].map JsFile.size).sum := by
    rw [hsum]; exact Nat.not_lt.mpr hs
  have hparsed : parsedAll [A, B] = some [pa, pb] := by
    simp [parsedAll, ha, hb]
  obtain ⟨evs, hEq, _⟩ := mergeLoop_spec [A, B] [pa, pb] 2 0 [] 0 hparsed
  refine ⟨{ content := pa ++ pb,
            fileName := stripPdfExt A.name ++ "_merged.pdf",
            totalPages := pa.length + pb.length }, ?_, rfl, rfl⟩
  simp [mergePdfFiles, mergeTryBody, hlt, hEq, Nat.not_lt.mpr hs]

/-- Witness for C6_merge_two_concatenates on two small files. -/
theorem C6_merge_two_concatenates_witness :
    ∃ r, (mergePdfFiles [wfileA, wfileB]).2 = Except.ok r ∧
      r.totalPages = ([1, 2] : List Nat).length + ([3, 4, 5] : List Nat).length ∧
      r.content = ([1, 2] : List Nat) ++ ([3, 4, 5] : List Nat) :=
  C6_merge_two_concatenates wfileA wfileB [1, 2] [3, 4, 5] rfl rfl (by decide)

/-- Claim C7: for a valid merge of k documents the progress callback
fires exactly once per input document fully merged, with arguments (1,k)
through (k,k) in order and never per page, and the output filename is
the base name of the first input followed by the fixed merged suffix. -/
theorem C7_merge_progress_and_fileName (files : List JsFile) (pss : List (List Nat))
    (hp : parsedAll files = some pss) (hk : 2 ≤ files.length)
    (hs : (files.map JsFile.size).sum ≤ MAX_TOTAL_SIZE) :
    progressCalls (mergePdfFiles files).1
        = (List.range' 1 files.length).map (fun c => (c, files.length)) ∧
    ∃ r, (mergePdfFiles files).2 = Except.ok r ∧
      r.fileName = stripPdfExt (files.headD dfltFile).name ++ "_merged.pdf" := by
  have h0 : ¬ files.length = 0 := by omega
  have h1 : ¬ files.length = 1 := by omega
  have hlt : ¬ MAX_TOTAL_SIZE < (files.map JsFile.size).sum := Nat.not_lt.mpr hs
  obtain ⟨evs, hEq, hProg⟩ := mergeLoop_spec files pss files.length 0 [] 0 hp
  have hbody : mergePdfFiles files =
      (evs, Except.ok
        { content := [] ++ pss.flatten,
          fileName := stripPdfExt (files.headD dfltFile).name ++ "_merged.pdf",
          totalPages := 0 + (pss.map List.length).sum }) := by
    simp [mergePdfFiles, mergeTryBody, h0, h1, hlt, hEq]
  rw [hbody]
  refine ⟨by simpa using hProg, ⟨_, rfl, rfl⟩⟩

/-- Witness for C7_merge_progress_and_fileName on two small files. -/
theorem C7_merge_progress_and_fileName_witness :
    progressCalls (mergePdfFiles [wfileA, wfileB]).1
        = (List.range' 1 ([wfileA, wfileB] : List JsFile).length).map
            (fun c => (c, ([wfileA, wfileB] : List JsFile).length)) ∧
    ∃ r, (mergePdfFiles [wfileA, wfileB]).2 = Except.ok r ∧
      r.fileName = stripPdfExt (([wfileA, wfileB] : List JsFile).headD dfltFile).name
          ++ "_merged.pdf" :=
  C7_merge_progress_and_fileName [wfileA, wfileB] [[1, 2], [3, 4, 5]]
    (by decide) (by decide) (by decide)




/-- Claim C8: both size ceilings are enforced strictly before any work:
a single file over 100 MB makes splitPdfPages fail typed FILE_TOO_LARGE
with an empty event trace (no byte read, no parse, no page copied), and
a merge whose combined input size exceeds 200 MB fails typed
FILE_TOO_LARGE with an empty event trace. -/
theorem C8_size_gates_before_any_read :
    (∀ file : JsFile, MAX_FILE_SIZE < file.size →
        splitPdfPages file = ([], Except.error splitTooLargeErr) ∧
        splitTooLargeErr.type = some ErrorType.FILE_TOO_LARGE) ∧
    (∀ files : List JsFile, 2 ≤ files.length →
        MAX_TOTAL_SIZE < (files.map JsFile.size).sum →
        mergePdfFiles files = ([], Except.error mergeTooLargeErr) ∧
        mergeTooLargeErr.type = some ErrorType.FILE_TOO_LARGE) := by
  constructor
  · intro file h
    refine ⟨?_, rfl⟩
    simp [splitPdfPages, splitTryBody, h]
    rfl
  · intro files hk h
    have h0 : ¬ files.length = 0 := by omega
    have h1 : ¬ files.length = 1 := by omega
    refine ⟨?_, rfl⟩
    simp [mergePdfFiles, mergeTryBody, h0, h1, h]
    rfl

/-- Witness for C8_size_gates_before_any_read at a 101 MB file and a
201 MB merge pair. -/
theorem C8_size_gates_witness :
    (splitPdfPages bigFile = ([], Except.error splitTooLargeErr) ∧
        splitTooLargeErr.type = some ErrorType.FILE_TOO_LARGE) ∧
    (mergePdfFiles [bigA, bigB] = ([], Except.error mergeTooLargeErr) ∧
        mergeTooLargeErr.type = some ErrorType.FILE_TOO_LARGE) :=
  ⟨C8_size_gates_before_any_read.1 bigFile (by decide),
   C8_size_gates_before_any_read.2 [bigA, bigB] (by decide) (by decide)⟩


/-- Claim C9: any internal failure of the thumbnail renderer (missing
window, failed import, failed load, missing canvas context, failed
render) yields the empty-string sentinel instead of an exception, and
attaching thumbnails never alters the owning split results. -/
theorem C9_thumbnail_nonfatal :
    (∀ env : ThumbEnv,
        (env.hasWindow = false ∨ env.importFails = true ∨ env.loadFails = true ∨
         env.hasContext = false ∨ env.renderFails = true) →
        generateThumbnail env = "") ∧
    (∀ (env : ThumbEnv) (rs : List SplitPdfResult),
        (attachThumbnails env rs).map ThumbedResult.result = rs) := by
  constructor
  · intro env h
    obtain ⟨hw, imf, lf, hc, rf, du⟩ := env
    cases hw <;> cases imf <;> cases lf <;> cases hc <;> cases rf <;>
      simp_all [generateThumbnail, generateThumbnailTry]
  · intro env rs
    induction rs with
    | nil => rfl
    | cons r rest ih => simp_all [attachThumbnails]

/-- Witness for C9_thumbnail_nonfatal at a failing render. -/
theorem C9_thumbnail_nonfatal_witness :
    generateThumbnail envRenderFail = "" ∧
    (attachThumbnails envRenderFail [dfltArt]).map ThumbedResult.result = [dfltArt] :=
  ⟨C9_thumbnail_nonfatal.1 envRenderFail (Or.inr (Or.inr (Or.inr (Or.inr rfl)))),
   C9_thumbnail_nonfatal.2 envRenderFail [dfltArt]⟩

end KanTannaPDF
